import Mathlib

/-!
Smart thermometer web page (`src/web_page.h`)

The page served by the ESP32 firmware carries a small script: `updateTemperatureUI`
writes a reading into the gauge, `fetchData` polls `/data` and renders the answer, and the
`window.onload` handler starts one poll and a three-second interval timer.

This file embeds that script.  The script is JavaScript running in a browser, so the
embedding has two layers:

* the host layer: the ECMAScript and DOM operations the script calls (`parseFloat`,
  `Number.prototype.toFixed`, `ToString`, property access, the `textContent` and inline-style
  setters, `fetch`, `Response.json`, `console.error`, `setInterval`), written after the
  ECMAScript and DOM standards;
* the script layer: `updateTemperatureUI`, `fetchData` and `onload`, written statement by
  statement after the source.

Number values are the real numbers they denote (`ℚ`, every finite double is rational) plus
`NaN` and the two infinities; `-0` and `+0` are not told apart, which no operation the script
uses can observe.
-/

namespace Thermometer

/-! ## Host layer: Number values and their decimal text -/

/-- A JavaScript Number value: the real number a finite double denotes, or `NaN`, `+∞`, `-∞`. -/
inductive JSNumber where
  | finite (q : ℚ)
  | nan
  | posInf
  | negInf
deriving DecidableEq, Repr

/-- The character of a decimal digit `d < 10`. -/
def digitChar (d : Nat) : Char := Char.ofNat (48 + d)

/-- Decimal digits of `n`, most significant first, fuel bounded by `fuel`. -/
def decimalDigitsAux : Nat → Nat → List Char
  | 0, _ => []
  | fuel + 1, n =>
    if n < 10 then [digitChar n] else decimalDigitsAux fuel (n / 10) ++ [digitChar (n % 10)]

/-- The digits of the decimal representation of `n`, in order, with no leading zeroes
(and `"0"` for zero). -/
def decimalDigits (n : Nat) : List Char := decimalDigitsAux (n + 1) n

/-- The rational `2 ^ e` for an integer exponent. -/
def pow2 (e : Int) : ℚ := if 0 ≤ e then (2 : ℚ) ^ e.toNat else 1 / (2 : ℚ) ^ (-e).toNat

/-- The rational `10 ^ e` for an integer exponent. -/
def pow10 (e : Int) : ℚ := if 0 ≤ e then (10 : ℚ) ^ e.toNat else 1 / (10 : ℚ) ^ (-e).toNat

/-- The number of binary digits of `n` less one (`0` for `n < 2`), fuel bounded by `fuel`. -/
def binaryLogAux : Nat → Nat → Nat
  | 0, _ => 0
  | fuel + 1, n => if n < 2 then 0 else binaryLogAux fuel (n / 2) + 1

/-- For `n > 0`, the natural number `e` with `2 ^ e ≤ n < 2 ^ (e + 1)`. -/
def binaryLog (n : Nat) : Nat := binaryLogAux n n

/-- For `r > 0`, the integer `e` with `2 ^ e ≤ r < 2 ^ (e + 1)`. -/
def floorLog2 (r : ℚ) : Int :=
  let e0 : Int := (binaryLog r.num.natAbs : Int) - (binaryLog r.den : Int) - 1
  if pow2 (e0 + 1) ≤ r then e0 + 1 else e0

/-- Nearest integer, ties to the even one. -/
def roundHalfEven (r : ℚ) : Int :=
  let f := ⌊r⌋
  let d := r - f
  if d < 1 / 2 then f else if 1 / 2 < d then f + 1 else if f % 2 = 0 then f else f + 1

/-- The Number value for a real number (ECMA-262 `𝔽`): round to the nearest double, ties to
even, subnormals below `2 ^ -1022`, overflow to infinity from `2 ^ 1024 - 2 ^ 970` on. -/
def roundToDouble (r : ℚ) : JSNumber :=
  if r = 0 then .finite 0
  else
    let e := max (floorLog2 |r|) (-1022) - 52
    let m := roundHalfEven (|r| / pow2 e)
    let v := (m : ℚ) * pow2 e
    if (2 : ℚ) ^ 1024 ≤ v then (if r < 0 then .negInf else .posInf)
    else .finite (if r < 0 then -v else v)

/-- For `r > 0`, the integer `n` with `10 ^ (n - 1) ≤ r < 10 ^ n`. -/
def decimalExponent (r : ℚ) : Int :=
  let e0 : Int :=
    ((decimalDigits r.num.natAbs).length : Int) - ((decimalDigits r.den).length : Int)
  if pow10 e0 ≤ r then e0 + 1 else e0

/-- Whether the decimal `s × p` converts back to the Number `x`. -/
def roundTrips (x : ℚ) (s : Nat) (p : ℚ) : Bool :=
  decide (roundToDouble ((s : ℚ) * p) = .finite x)

/-- Search for the shortest significand: for `k`, `k + 1`, ... the integer `s` of `k` digits
with `𝔽(s × 10 ^ (n - k)) = x`, the one nearer to `x` when two qualify and the even one when
both are equally near (ECMA-262 Number::toString step 5 and its note); the result is
`(s, k)`.  A double is found with `k ≤ 17`; when the
fuel runs out the truncated significand is returned. -/
def shortestSignificand (x : ℚ) (n : Int) : Nat → Nat → Nat × Nat
  | 0, k => (⌊x / pow10 (n - k)⌋.toNat, k)
  | fuel + 1, k =>
    let p := pow10 (n - k)
    let lo := ⌊x / p⌋.toNat
    let hi := lo + 1
    if roundTrips x lo p then
      if roundTrips x hi p then
        if (hi : ℚ) * p - x < x - (lo : ℚ) * p then (hi, k)
        else if x - (lo : ℚ) * p < (hi : ℚ) * p - x then (lo, k)
        else if lo % 2 = 0 then (lo, k) else (hi, k)
      else (lo, k)
    else if roundTrips x hi p then (hi, k)
    else shortestSignificand x n fuel (k + 1)

/-- Drop the zeroes at the end of a digit string, keeping at least one digit. -/
def stripTrailingZeros (ds : List Char) : List Char :=
  match (ds.reverse.dropWhile (· == '0')).reverse with
  | [] => ['0']
  | l => l

/-- Lay out the significand digits `ds` (`k` of them) with decimal exponent `n`
(ECMA-262 Number::toString steps 6 to 10). -/
def layoutDecimal (ds : List Char) (n : Int) : List Char :=
  let k : Int := ds.length
  if k ≤ n ∧ n ≤ 21 then ds ++ List.replicate (n.toNat - ds.length) '0'
  else if 0 < n ∧ n ≤ 21 then ds.take n.toNat ++ '.' :: ds.drop n.toNat
  else if -6 < n ∧ n ≤ 0 then '0' :: '.' :: (List.replicate (-n).toNat '0' ++ ds)
  else
    let e := n - 1
    let expPart := 'e' :: (if 0 ≤ e then '+' else '-') :: decimalDigits e.natAbs
    match ds with
    | [] => expPart
    | [d] => d :: expPart
    | d :: rest => d :: '.' :: (rest ++ expPart)

/-- Text of a positive finite Number (ECMA-262 Number::toString, radix 10). -/
def positiveToString (x : ℚ) : List Char :=
  let n0 := decimalExponent x
  let (s, k) := shortestSignificand x n0 17 1
  let all := decimalDigits s
  -- a significand that reached `10 ^ k` has one digit more and moves the exponent up
  let n := n0 + ((all.length : Int) - (k : Int))
  layoutDecimal (stripTrailingZeros all) n

/-- Text of a Number value (ECMA-262 Number::toString, radix 10). -/
def numberToString : JSNumber → String
  | .nan => "NaN"
  | .posInf => "Infinity"
  | .negInf => "-Infinity"
  | .finite q =>
    if q = 0 then "0"
    else if q < 0 then String.mk ('-' :: positiveToString (-q))
    else String.mk (positiveToString q)

/-- The method `Number.prototype.toFixed(f)` (ECMA-262 21.1.3.3) for `f ≤ 100`: a non-finite
value gives its `ToString`; the sign is split off; a magnitude of `10 ^ 21` or more gives its
`ToString`;
otherwise `n` is the integer nearest to `x × 10 ^ f`, the larger one on a tie, and its
digits, padded to `f + 1`, are split `f` from the right by a point. -/
def toFixed (v : JSNumber) (f : Nat) : String :=
  match v with
  | .finite q =>
    let s : List Char := if q < 0 then ['-'] else []
    let x := |q|
    if (10 : ℚ) ^ 21 ≤ x then String.mk (s ++ (numberToString (.finite x)).data)
    else
      let n := ⌊x * (10 : ℚ) ^ f + 1 / 2⌋.toNat
      let m := decimalDigits n
      if f = 0 then String.mk (s ++ m)
      else
        let m := List.replicate (f + 1 - m.length) '0' ++ m
        let k := m.length
        String.mk (s ++ m.take (k - f) ++ '.' :: m.drop (k - f))
  | v => numberToString v

/-! ## Host layer: values, `ToString`, `parseFloat`, property access -/

/-- A JavaScript value as the script can meet it: `undefined`, or what `JSON.parse` builds. -/
inductive JSValue where
  | undefined
  | null
  | bool (b : Bool)
  | number (x : JSNumber)
  | string (s : String)
  | array (items : List JSValue)
  | object (fields : List (String × JSValue))

/-- Errors that reject a promise of the polling chain or are thrown inside it. -/
inductive JSError where
  /-- The promise of `fetch` rejected: the request failed at the transport level. -/
  | networkError
  /-- The promise of `Response.json` rejected: the body is not JSON text. -/
  | syntaxError
  /-- A property was read from `null` or `undefined`, or an object could not be converted
  to a primitive value. -/
  | typeError
deriving DecidableEq, Repr

mutual
/-- ECMA-262 `ToString`.  An array joins its elements with commas.  An object built by
`JSON.parse` has no callable member, so when it has a member of its own named `toString`
neither that member nor `valueOf` yields a primitive and a `TypeError` is thrown; without
such a member `Object.prototype.toString` gives `[object Object]`. -/
def JSValue.toStr : JSValue → Except JSError String
  | .undefined => .ok "undefined"
  | .null => .ok "null"
  | .bool b => .ok (if b then "true" else "false")
  | .number x => .ok (numberToString x)
  | .string s => .ok s
  | .array items => JSValue.join items
  | .object fields =>
    if fields.any (fun kv => kv.1 == "toString") then .error .typeError
    else .ok "[object Object]"
/-- The method `Array.prototype.join` with the comma separator: the elements are converted
from left to right and the first conversion that throws ends the call. -/
def JSValue.join : List JSValue → Except JSError String
  | [] => .ok ""
  | [x] => JSValue.joinItem x
  | x :: y :: rest =>
    match JSValue.joinItem x with
    | .error e => .error e
    | .ok a =>
      match JSValue.join (y :: rest) with
      | .error e => .error e
      | .ok b => .ok (a ++ "," ++ b)
/-- The text of one array element inside `join`: empty for `undefined` and `null`, the
`ToString` of any other value. -/
def JSValue.joinItem : JSValue → Except JSError String
  | .undefined => .ok ""
  | .null => .ok ""
  | .bool b => .ok (if b then "true" else "false")
  | .number x => .ok (numberToString x)
  | .string s => .ok s
  | .array items => JSValue.join items
  | .object fields =>
    if fields.any (fun kv => kv.1 == "toString") then .error .typeError
    else .ok "[object Object]"
end

/-- White space and line terminators that `parseFloat` skips at the start of its input. -/
def isStrWhiteSpaceChar (c : Char) : Bool :=
  c.toNat ∈ [0x9, 0xA, 0xB, 0xC, 0xD, 0x20, 0xA0, 0x1680, 0x2028, 0x2029, 0x202F, 0x205F,
    0x3000, 0xFEFF] || (0x2000 ≤ c.toNat && c.toNat ≤ 0x200A)

/-- The number a string of decimal digits denotes. -/
def natOfDigits (ds : List Char) : Nat := ds.foldl (fun acc c => 10 * acc + (c.toNat - 48)) 0

/-- The value of an `ExponentPart` at the head of `cs`, `0` when there is none: `e` or `E`,
an optional sign, at least one digit. -/
def exponentPart (cs : List Char) : Int :=
  match cs with
  | [] => 0
  | c :: rest =>
    if c = 'e' ∨ c = 'E' then
      match rest with
      | '+' :: r =>
        let ds := r.takeWhile Char.isDigit
        if ds = [] then 0 else (natOfDigits ds : Int)
      | '-' :: r =>
        let ds := r.takeWhile Char.isDigit
        if ds = [] then 0 else -(natOfDigits ds : Int)
      | r =>
        let ds := r.takeWhile Char.isDigit
        if ds = [] then 0 else (natOfDigits ds : Int)
    else 0

/-- The mathematical value of the longest prefix of `cs` that is an unsigned decimal literal
(`digits`, `digits.`, `digits.digits`, `.digits`, each with an optional exponent), or `none`
when no prefix is one. -/
def unsignedDecimalValue (cs : List Char) : Option ℚ :=
  let intDigits := cs.takeWhile Char.isDigit
  let afterInt := cs.dropWhile Char.isDigit
  match afterInt with
  | '.' :: r =>
    let fracDigits := r.takeWhile Char.isDigit
    if intDigits = [] ∧ fracDigits = [] then none
    else
      some ((natOfDigits (intDigits ++ fracDigits) : ℚ) *
        pow10 (exponentPart (r.dropWhile Char.isDigit) - (fracDigits.length : Int)))
  | r =>
    if intDigits = [] then none
    else some ((natOfDigits intDigits : ℚ) * pow10 (exponentPart r))

/-- The text `Infinity`. -/
def infinityText : List Char := ['I', 'n', 'f', 'i', 'n', 'i', 't', 'y']

/-- The Number of the longest unsigned-literal prefix of `cs`: `Infinity`, or a decimal
literal rounded to a double; `NaN` when there is no such prefix. -/
def parseUnsigned (cs : List Char) : JSNumber :=
  if infinityText.isPrefixOf cs then .posInf
  else
    match unsignedDecimalValue cs with
    | none => .nan
    | some mv => roundToDouble mv

/-- Sign change of a Number. -/
def JSNumber.neg : JSNumber → JSNumber
  | .finite q => .finite (-q)
  | .nan => .nan
  | .posInf => .negInf
  | .negInf => .posInf

/-- ECMA-262 `parseFloat` on a string: skip leading white space, read the longest prefix that
is a `StrDecimalLiteral`, return its Number value, `NaN` when there is none. -/
def parseFloatString (s : String) : JSNumber :=
  match s.data.dropWhile isStrWhiteSpaceChar with
  | '+' :: rest => parseUnsigned rest
  | '-' :: rest => (parseUnsigned rest).neg
  | rest => parseUnsigned rest

/-- ECMA-262 `parseFloat(v)`: `ToString(v)` is parsed, and an error thrown by `ToString` is
thrown by the call.  For a Number argument the text that `ToString` produces parses back to
the same Number (Number::toString picks digits `s`, `n`, `k` with
`𝔽(s × 10 ^ (n - k)) = x`, and `NaN`, `Infinity`, `-Infinity` read back as themselves), so
the Number is returned as it is. -/
def parseFloat : JSValue → Except JSError JSNumber
  | .number x => .ok x
  | v =>
    match v.toStr with
    | .error e => .error e
    | .ok text => .ok (parseFloatString text)

/-- Property read `v.key` for a key that no built-in prototype defines (such as
`temperature` and `status`): reading from `undefined` or `null` throws a `TypeError`, an
object gives its own property or `undefined`, every other value gives `undefined`.  The
members of an object are listed in the order of the JSON text, and of two members with the
same key `JSON.parse` keeps the later one. -/
def getProperty (v : JSValue) (key : String) : Except JSError JSValue :=
  match v with
  | .undefined => .error .typeError
  | .null => .error .typeError
  | .object fields =>
    match fields.reverse.find? (fun kv => kv.1 == key) with
    | some kv => .ok kv.2
    | none => .ok .undefined
  | _ => .ok .undefined

/-! ## Host layer: the document -/

/-- The custom properties that the style sheet declares on `:root`. -/
def rootVariables : List (String × String) :=
  [("--bg-color", "#1a1a2e"), ("--card-color", "#16213e"), ("--secondary-text", "#a7a9be"),
   ("--color-low", "#00bfff"), ("--color-normal", "#2ecc71"),
   ("--color-elevated", "#f39c12"), ("--color-fever", "#e74c3c")]

/-- The colour that the reference `var(name)` computes to on the page. -/
def computedColor (name : String) : Option String :=
  (rootVariables.find? (fun kv => kv.1 == name)).map (·.2)

/-- The observable attributes of the gauge: the text of `#temp-value` and `#temp-status`,
and the inline style properties the script writes (`border-color` and `box-shadow` of
`#temp-display`, `color` of `#temp-status` and of `#temp-value`).  An inline property that
was never set is the empty string. -/
structure DisplayState where
  tempValueText : String
  tempStatusText : String
  borderColor : String
  boxShadow : String
  tempStatusColor : String
  tempValueColor : String
deriving DecidableEq, Repr

/-- The page: the gauge and the entries written to the console. -/
structure Page where
  display : DisplayState
  console : List JSError
deriving DecidableEq, Repr

/-- The text of the markup `&deg;C`: the degree sign and `C`. -/
def degC : String := "°C"

/-- The gauge as the markup of the page gives it: `--.-&deg;C`, `LOADING...`, no inline
style. -/
def initialDisplay : DisplayState :=
  { tempValueText := "--.-°C", tempStatusText := "LOADING...", borderColor := "",
    boxShadow := "", tempStatusColor := "", tempValueColor := "" }

/-- The page when it has loaded. -/
def initialPage : Page := { display := initialDisplay, console := [] }

/-- The text that the `textContent` setter stores: the attribute is a nullable string, so
`undefined` and `null` give the empty text and every other value its `ToString`, whose
error, if it throws, is thrown by the assignment. -/
def textContentOf : JSValue → Except JSError String
  | .undefined => .ok ""
  | .null => .ok ""
  | v => v.toStr

/-- The setter of an inline style property.  `value` is the CSS value that the assigned text
parses to: a text holding a `var(--…)` reference is kept as written, and a text that is no
value of the property is `none`, in which case the declaration is ignored and the property
keeps what it had. -/
def setStyleProperty (old : String) (value : Option String) : String :=
  match value with
  | some v => v
  | none => old

/-- The call `console.error('Error fetching data:', error)`. -/
def consoleError (e : JSError) (p : Page) : Page := { p with console := p.console ++ [e] }

/-! ## The script -/

/-- The variable `colorVar` of `updateTemperatureUI` after the `if` chain: the strict
comparisons `status === 'LOW'` and so on hold only for a string with exactly that text, and
when none holds the variable stays `undefined` (`none`). -/
def colorVar (status : JSValue) : Option String :=
  match status with
  | .string s =>
    if s = "LOW" then some "var(--color-low)"
    else if s = "NORMAL" then some "var(--color-normal)"
    else if s = "ELEVATED" then some "var(--color-elevated)"
    else if s = "FEVER" then some "var(--color-fever)"
    else none
  | _ => none

/-- How a call of `updateTemperatureUI` ends: the gauge as the call leaves it, and the
error that ended the call early, if one was thrown. -/
structure Completion where
  display : DisplayState
  thrown : Option JSError
deriving DecidableEq, Repr

/-- The function `updateTemperatureUI(temp, status)` of the page, statement by statement.
The first assignment evaluates `parseFloat(temp)` and throws before anything is written when
that throws.  The second assignment converts `status` to text and throws, with the numeric
text already written, when that conversion throws.  The text `undefined`, which an unset
`colorVar` gives, is neither a colour nor part of a shadow, so the four style assignments
pass no value then. -/
def updateTemperatureUI (temp status : JSValue) (d : DisplayState) : Completion :=
  match parseFloat temp with
  | .error e => { display := d, thrown := some e }
  | .ok x =>
    let d1 := { d with tempValueText := toFixed x 1 ++ degC }
    match textContentOf status with
    | .error e => { display := d1, thrown := some e }
    | .ok text =>
      { display :=
          { tempValueText := d1.tempValueText
            tempStatusText := text
            borderColor := setStyleProperty d1.borderColor (colorVar status)
            boxShadow :=
              setStyleProperty d1.boxShadow ((colorVar status).map (fun c => "0 0 25px " ++ c))
            tempStatusColor := setStyleProperty d1.tempStatusColor (colorVar status)
            tempValueColor := setStyleProperty d1.tempValueColor (colorVar status) }
        thrown := none }

/-- An HTTP response: its status code and its body read as JSON, `none` when the body is
not JSON text. -/
structure Response where
  status : Nat
  body : Option JSValue

/-- How the request `fetch('/data')` settles: `fetch` rejects only when the request fails at
the transport level, and fulfils with the response whatever its status code. -/
inductive FetchOutcome where
  | rejected
  | fulfilled (response : Response)

/-- The promise `fetch('/data')`. -/
def fetch (o : FetchOutcome) : Except JSError Response :=
  match o with
  | .rejected => .error .networkError
  | .fulfilled r => .ok r

/-- The promise `response.json()`. -/
def Response.json (r : Response) : Except JSError JSValue :=
  match r.body with
  | none => .error .syntaxError
  | some v => .ok v

/-- The arguments with which the chain of `fetchData` reaches the call of
`updateTemperatureUI`: `fetch`, then `response.json()`, then the Number
`parseFloat(data.temperature)` and the value `data.status`; an error when a step rejects or
throws. -/
def renderArguments (o : FetchOutcome) : Except JSError (JSNumber × JSValue) :=
  match fetch o with
  | .error e => .error e
  | .ok response =>
    match response.json with
    | .error e => .error e
    | .ok data =>
      match getProperty data "temperature" with
      | .error e => .error e
      | .ok temperature =>
        match parseFloat temperature with
        | .error e => .error e
        | .ok temp =>
          match getProperty data "status" with
          | .error e => .error e
          | .ok status => .ok (temp, status)

/-- What `fetchData` does to the page when its request settles: the second `then` callback
renders the reading, and `catch` logs the error of any step before the call of
`updateTemperatureUI` or thrown inside it; what the call had written before it threw
stays. -/
def fetchDataSettled (o : FetchOutcome) (p : Page) : Page :=
  match renderArguments o with
  | .error e => consoleError e p
  | .ok (temp, status) =>
    let c := updateTemperatureUI (.number temp) status p.display
    match c.thrown with
    | none => { p with display := c.display }
    | some e => consoleError e { p with display := c.display }

/-- The functions of the script that are used as callbacks. -/
inductive Callback where
  | fetchData
deriving DecidableEq, Repr

/-- A repeating timer armed by `setInterval`: its callback, its period and the time of its
next tick, in milliseconds. -/
structure Timer where
  callback : Callback
  period : Nat
  due : Nat
deriving DecidableEq, Repr

/-- A request `GET /data` issued by `fetch`: the time it was issued at, and whether it has
settled. -/
structure Request where
  issuedAt : Nat
  settled : Bool
deriving DecidableEq, Repr

/-- The window: the clock, the page, the armed timers and the requests issued so far. -/
structure Window where
  now : Nat
  page : Page
  timers : List Timer
  requests : List Request
deriving DecidableEq, Repr

/-- The function `fetchData()` up to its return: `fetch('/data')` issues a request and the
call returns at once; the chain runs later, when the request settles. -/
def fetchData (w : Window) : Window :=
  { w with requests := w.requests ++ [{ issuedAt := w.now, settled := false }] }

/-- The call `setInterval(callback, period)`: one more repeating timer, first due one period
from now. -/
def setInterval (callback : Callback) (period : Nat) (w : Window) : Window :=
  { w with timers := w.timers ++ [{ callback := callback, period := period,
                                    due := w.now + period }] }

/-- The `window.onload` handler. -/
def onload (w : Window) : Window :=
  setInterval .fetchData 3000 (fetchData w)

/-- Run a callback. -/
def Callback.run : Callback → Window → Window
  | .fetchData, w => Thermometer.fetchData w

/-- What the event loop delivers after the page has loaded: the tick of the timer with
index `id`, or the settling of the request with index `id`. -/
inductive Event where
  | timerFires (id : Nat)
  | requestSettles (id : Nat) (o : FetchOutcome)

/-- One turn of the event loop.  A tick moves the clock to the time the timer was due, runs
its callback and sets the timer one period further; the script has no `clearInterval`, so a
timer is never removed.  A request that is in flight settles once, and the chain of
`fetchData` then runs on the page. -/
def Window.step (w : Window) : Event → Window
  | .timerFires id =>
    match w.timers[id]? with
    | none => w
    | some t =>
      let w1 := { w with now := t.due,
                         timers := w.timers.set id { t with due := t.due + t.period } }
      t.callback.run w1
  | .requestSettles id o =>
    match w.requests[id]? with
    | none => w
    | some r =>
      if r.settled then w
      else { w with requests := w.requests.set id { r with settled := true },
                    page := fetchDataSettled o w.page }

/-- The window after a sequence of events. -/
def Window.run (w : Window) (events : List Event) : Window := events.foldl Window.step w

/-- The window at the moment the `load` event is dispatched. -/
def initialWindow : Window :=
  { now := 0, page := initialPage, timers := [], requests := [] }

/-- The number of ticks of timer `0` in a sequence of events. -/
def ticks (events : List Event) : Nat :=
  events.countP (fun e => match e with | .timerFires 0 => true | _ => false)

/-- The value `JSON.parse` builds for a number literal whose decimal value is `q`. -/
def jsonNumber (q : ℚ) : JSValue := .number (roundToDouble q)

/-- The object `JSON.parse` builds for a body with a `temperature` and a `status` member. -/
def jsonReading (temperature status : JSValue) : JSValue :=
  .object [("temperature", temperature), ("status", status)]

/-- The text `text` is the number `t` rounded to one fractional digit: an optional minus
sign, a non-empty run of digits, a point and one digit, of a value at most 0.05 away from
`t`. -/
def IsRoundedToOneDigit (text : String) (t : ℚ) : Prop :=
  ∃ (neg : Bool) (digits : List Char) (last : Char),
    text = String.mk ((if neg then ['-'] else []) ++ digits ++ ['.', last]) ∧
    digits ≠ [] ∧ (∀ c ∈ digits, c.isDigit = true) ∧ last.isDigit = true ∧
    |(if neg then -1 else 1) * ((natOfDigits digits : ℚ) + (natOfDigits [last] : ℚ) / 10) - t|
      ≤ 1 / 20

/-! ## Decimal digits -/

theorem digitChar_spec (d : Nat) (h : d < 10) :
    (digitChar d).isDigit = true ∧ (digitChar d).toNat - 48 = d ∧ digitChar d ≠ '-' := by
  interval_cases d <;> decide

theorem decimalDigitsAux_fuel (fuel1 : Nat) :
    ∀ (fuel2 n : Nat), n < fuel1 → n < fuel2 →
      decimalDigitsAux fuel1 n = decimalDigitsAux fuel2 n := by
  induction fuel1 with
  | zero => intro fuel2 n h; omega
  | succ f1 ih =>
    intro fuel2 n h1 h2
    cases fuel2 with
    | zero => omega
    | succ f2 =>
      simp only [decimalDigitsAux]
      split
      · rfl
      · rw [ih f2 (n / 10) (by omega) (by omega)]

theorem decimalDigits_eq (n : Nat) :
    decimalDigits n =
      if n < 10 then [digitChar n] else decimalDigits (n / 10) ++ [digitChar (n % 10)] := by
  show decimalDigitsAux (n + 1) n = _
  rw [decimalDigitsAux]
  split
  · rfl
  · show _ = decimalDigitsAux (n / 10 + 1) (n / 10) ++ _
    rw [decimalDigitsAux_fuel n (n / 10 + 1) (n / 10) (by omega) (by omega)]

theorem natOfDigits_append (l : List Char) (c : Char) :
    natOfDigits (l ++ [c]) = 10 * natOfDigits l + (c.toNat - 48) := by
  simp [natOfDigits, List.foldl_append]

theorem decimalDigits_spec (n : Nat) :
    decimalDigits n ≠ [] ∧ (∀ c ∈ decimalDigits n, c.isDigit = true ∧ c ≠ '-') ∧
      natOfDigits (decimalDigits n) = n := by
  induction n using Nat.strong_induction_on with
  | _ n ih =>
    rw [decimalDigits_eq]
    split
    · rename_i h
      obtain ⟨h1, h2, h3⟩ := digitChar_spec n h
      refine ⟨by simp, ?_, ?_⟩
      · intro c hc
        simp only [List.mem_singleton] at hc
        subst hc
        exact ⟨h1, h3⟩
      · simp [natOfDigits, h2]
    · rename_i h
      obtain ⟨h1, h2, h3⟩ := digitChar_spec (n % 10) (Nat.mod_lt _ (by norm_num))
      obtain ⟨i1, i2, i3⟩ := ih (n / 10) (by omega)
      refine ⟨by simp, ?_, ?_⟩
      · intro c hc
        simp only [List.mem_append, List.mem_singleton] at hc
        rcases hc with hc | hc
        · exact i2 c hc
        · subst hc
          exact ⟨h1, h3⟩
      · rw [natOfDigits_append, i3, h2]
        omega

theorem decimalDigits_head (n : Nat) :
    ∃ c rest, decimalDigits n = c :: rest ∧ c ≠ '-' := by
  obtain ⟨h1, h2, -⟩ := decimalDigits_spec n
  cases h : decimalDigits n with
  | nil => exact absurd h h1
  | cons c rest => exact ⟨c, rest, rfl, (h2 c (by rw [h]; simp)).2⟩

theorem decimalDigits_zero : decimalDigits 0 = ['0'] := by decide

theorem pad_take_drop (n : Nat) :
    List.take
        ((List.replicate (1 + 1 - (decimalDigits n).length) '0' ++ decimalDigits n).length - 1)
        (List.replicate (1 + 1 - (decimalDigits n).length) '0' ++ decimalDigits n) =
      decimalDigits (n / 10) ∧
    List.drop
        ((List.replicate (1 + 1 - (decimalDigits n).length) '0' ++ decimalDigits n).length - 1)
        (List.replicate (1 + 1 - (decimalDigits n).length) '0' ++ decimalDigits n) =
      [digitChar (n % 10)] := by
  by_cases hn : n < 10
  · have h0 : n / 10 = 0 := by omega
    have h1 : n % 10 = n := by omega
    have h2 : decimalDigits n = [digitChar n] := by rw [decimalDigits_eq, if_pos hn]
    rw [h0, h1, decimalDigits_zero, h2]
    exact ⟨rfl, rfl⟩
  · have h2 : decimalDigits n = decimalDigits (n / 10) ++ [digitChar (n % 10)] := by
      rw [decimalDigits_eq, if_neg hn]
    obtain ⟨c, rest, hc, -⟩ := decimalDigits_head (n / 10)
    rw [h2, hc]
    have hlen : (c :: rest ++ [digitChar (n % 10)]).length = rest.length + 2 := by simp
    have hzero : 1 + 1 - (rest.length + 2) = 0 := by omega
    rw [hlen, hzero]
    simp only [List.replicate, List.nil_append, hlen]
    have h3 : rest.length + 2 - 1 = (c :: rest).length := by simp
    rw [h3]
    exact ⟨List.take_left' rfl, List.drop_left' rfl⟩

theorem toFixed_one_eq (t : ℚ) (h : |t| < 10 ^ 21) :
    toFixed (.finite t) 1 =
      String.mk ((if t < 0 then ['-'] else []) ++
        decimalDigits (⌊|t| * 10 + 1 / 2⌋.toNat / 10) ++
        ['.', digitChar (⌊|t| * 10 + 1 / 2⌋.toNat % 10)]) := by
  have hlt : ¬ (10 : ℚ) ^ 21 ≤ |t| := not_le.mpr h
  unfold toFixed
  simp only [hlt, if_false, pow_one, one_ne_zero]
  generalize ⌊|t| * 10 + 1 / 2⌋.toNat = n
  obtain ⟨h1, h2⟩ := pad_take_drop n
  rw [h1, h2]

/-! ## Properties of `updateTemperatureUI` -/

theorem parseFloat_number (x : JSNumber) : parseFloat (.number x) = .ok x := rfl

theorem parseFloat_string (s : String) :
    parseFloat (.string s) = .ok (parseFloatString s) := by
  simp [parseFloat, JSValue.toStr]

theorem textContentOf_string (s : String) : textContentOf (.string s) = .ok s := by
  simp [textContentOf, JSValue.toStr]

theorem colorVar_of_unknown (s : String) (h1 : s ≠ "LOW") (h2 : s ≠ "NORMAL")
    (h3 : s ≠ "ELEVATED") (h4 : s ≠ "FEVER") : colorVar (.string s) = none := by
  simp [colorVar, h1, h2, h3, h4]

theorem colorVar_of_known (s : String)
    (h : s = "LOW" ∨ s = "NORMAL" ∨ s = "ELEVATED" ∨ s = "FEVER") :
    ∃ c, colorVar (.string s) = some c := by
  rcases h with h | h | h | h <;> subst h <;> simp [colorVar]

theorem update_ok (temp status : JSValue) (d : DisplayState) (x : JSNumber) (text : String)
    (hx : parseFloat temp = .ok x) (ht : textContentOf status = .ok text) :
    updateTemperatureUI temp status d =
      { display :=
          { tempValueText := toFixed x 1 ++ degC
            tempStatusText := text
            borderColor := setStyleProperty d.borderColor (colorVar status)
            boxShadow :=
              setStyleProperty d.boxShadow ((colorVar status).map (fun c => "0 0 25px " ++ c))
            tempStatusColor := setStyleProperty d.tempStatusColor (colorVar status)
            tempValueColor := setStyleProperty d.tempValueColor (colorVar status) }
        thrown := none } := by
  simp [updateTemperatureUI, hx, ht]

theorem update_throw_temp (temp status : JSValue) (d : DisplayState) (e : JSError)
    (hx : parseFloat temp = .error e) :
    updateTemperatureUI temp status d = { display := d, thrown := some e } := by
  simp [updateTemperatureUI, hx]

theorem update_throw_status (temp status : JSValue) (d : DisplayState) (x : JSNumber)
    (e : JSError) (hx : parseFloat temp = .ok x) (ht : textContentOf status = .error e) :
    updateTemperatureUI temp status d =
      { display := { d with tempValueText := toFixed x 1 ++ degC }, thrown := some e } := by
  simp [updateTemperatureUI, hx, ht]

theorem update_of_some (temp : JSValue) (s : String) (d : DisplayState) (x : JSNumber)
    (c : String) (hx : parseFloat temp = .ok x) (h : colorVar (.string s) = some c) :
    updateTemperatureUI temp (.string s) d =
      { display :=
          { tempValueText := toFixed x 1 ++ degC
            tempStatusText := s
            borderColor := c
            boxShadow := "0 0 25px " ++ c
            tempStatusColor := c
            tempValueColor := c }
        thrown := none } := by
  rw [update_ok temp (.string s) d x s hx (textContentOf_string s)]
  simp [h, setStyleProperty]

theorem update_of_none (temp status : JSValue) (d : DisplayState) (x : JSNumber)
    (text : String) (hx : parseFloat temp = .ok x) (ht : textContentOf status = .ok text)
    (h : colorVar status = none) :
    updateTemperatureUI temp status d =
      { display := { d with tempValueText := toFixed x 1 ++ degC, tempStatusText := text },
        thrown := none } := by
  rw [update_ok temp status d x text hx ht]
  simp [h, setStyleProperty]

theorem update_number_text (x : JSNumber) (status : JSValue) (d : DisplayState) :
    (updateTemperatureUI (.number x) status d).display.tempValueText = toFixed x 1 ++ degC := by
  cases ht : textContentOf status with
  | error e => rw [update_throw_status (.number x) status d x e rfl ht]
  | ok text => rw [update_ok (.number x) status d x text rfl ht]

theorem update_colours_of_none (temp status : JSValue) (d : DisplayState)
    (h : colorVar status = none) :
    (updateTemperatureUI temp status d).display.borderColor = d.borderColor ∧
    (updateTemperatureUI temp status d).display.boxShadow = d.boxShadow ∧
    (updateTemperatureUI temp status d).display.tempStatusColor = d.tempStatusColor ∧
    (updateTemperatureUI temp status d).display.tempValueColor = d.tempValueColor := by
  cases hx : parseFloat temp with
  | error e => rw [update_throw_temp _ _ d e hx]; exact ⟨rfl, rfl, rfl, rfl⟩
  | ok x =>
    cases ht : textContentOf status with
    | error e => rw [update_throw_status _ _ d x e hx ht]; exact ⟨rfl, rfl, rfl, rfl⟩
    | ok text => rw [update_of_none _ _ d x text hx ht h]; exact ⟨rfl, rfl, rfl, rfl⟩

/-- C1: for each of the four status strings `updateTemperatureUI` writes the colour token of
the table, `LOW` to `var(--color-low)`, `NORMAL` to `var(--color-normal)`, `ELEVATED` to
`var(--color-elevated)`, `FEVER` to `var(--color-fever)`, into the border colour, the glow
and both text colours, whatever the display before the call and whatever the temperature,
be it a Number or any other value that `parseFloat` accepts; the four tokens are pairwise
distinct and so are the colours the style sheet gives them. -/
theorem known_status_colour_table :
    (∀ (temp : JSValue) (d : DisplayState), (∃ x, parseFloat temp = .ok x) →
      ∀ p ∈ [("LOW", "var(--color-low)"), ("NORMAL", "var(--color-normal)"),
             ("ELEVATED", "var(--color-elevated)"), ("FEVER", "var(--color-fever)")],
        (updateTemperatureUI temp (.string p.1) d).display.borderColor = p.2 ∧
        (updateTemperatureUI temp (.string p.1) d).display.boxShadow = "0 0 25px " ++ p.2 ∧
        (updateTemperatureUI temp (.string p.1) d).display.tempStatusColor = p.2 ∧
        (updateTemperatureUI temp (.string p.1) d).display.tempValueColor = p.2 ∧
        (updateTemperatureUI temp (.string p.1) d).thrown = none) ∧
    (∀ (x : JSNumber) (d : DisplayState),
      (updateTemperatureUI (.number x) (.string "LOW") d).display.borderColor =
        "var(--color-low)" ∧
      (updateTemperatureUI (.number x) (.string "NORMAL") d).display.borderColor =
        "var(--color-normal)" ∧
      (updateTemperatureUI (.number x) (.string "ELEVATED") d).display.borderColor =
        "var(--color-elevated)" ∧
      (updateTemperatureUI (.number x) (.string "FEVER") d).display.borderColor =
        "var(--color-fever)") ∧
    ["var(--color-low)", "var(--color-normal)", "var(--color-elevated)",
      "var(--color-fever)"].Nodup ∧
    [computedColor "--color-low", computedColor "--color-normal",
      computedColor "--color-elevated", computedColor "--color-fever"] =
      [some "#00bfff", some "#2ecc71", some "#f39c12", some "#e74c3c"] ∧
    ["#00bfff", "#2ecc71", "#f39c12", "#e74c3c"].Nodup := by
  have main : ∀ (temp : JSValue) (d : DisplayState), (∃ x, parseFloat temp = .ok x) →
      ∀ p ∈ [("LOW", "var(--color-low)"), ("NORMAL", "var(--color-normal)"),
             ("ELEVATED", "var(--color-elevated)"), ("FEVER", "var(--color-fever)")],
        (updateTemperatureUI temp (.string p.1) d).display.borderColor = p.2 ∧
        (updateTemperatureUI temp (.string p.1) d).display.boxShadow = "0 0 25px " ++ p.2 ∧
        (updateTemperatureUI temp (.string p.1) d).display.tempStatusColor = p.2 ∧
        (updateTemperatureUI temp (.string p.1) d).display.tempValueColor = p.2 ∧
        (updateTemperatureUI temp (.string p.1) d).thrown = none := by
    intro temp d hx p hp
    obtain ⟨x, hx⟩ := hx
    simp only [List.mem_cons, List.mem_singleton, List.not_mem_nil, or_false] at hp
    rcases hp with h | h | h | h <;> subst h
    · rw [update_of_some temp "LOW" d x "var(--color-low)" hx rfl]
      exact ⟨rfl, rfl, rfl, rfl, rfl⟩
    · rw [update_of_some temp "NORMAL" d x "var(--color-normal)" hx rfl]
      exact ⟨rfl, rfl, rfl, rfl, rfl⟩
    · rw [update_of_some temp "ELEVATED" d x "var(--color-elevated)" hx rfl]
      exact ⟨rfl, rfl, rfl, rfl, rfl⟩
    · rw [update_of_some temp "FEVER" d x "var(--color-fever)" hx rfl]
      exact ⟨rfl, rfl, rfl, rfl, rfl⟩
  refine ⟨main, ?_, by decide, by decide, by decide⟩
  intro x d
  exact ⟨(main (.number x) d ⟨x, rfl⟩ ("LOW", "var(--color-low)") (by simp)).1,
    (main (.number x) d ⟨x, rfl⟩ ("NORMAL", "var(--color-normal)") (by simp)).1,
    (main (.number x) d ⟨x, rfl⟩ ("ELEVATED", "var(--color-elevated)") (by simp)).1,
    (main (.number x) d ⟨x, rfl⟩ ("FEVER", "var(--color-fever)") (by simp)).1⟩

/-- Witness of C1: the temperature given as the text `36.6`, status `ELEVATED`, over the
initial display. -/
theorem known_status_colour_table_witness :
    (∃ x, parseFloat (.string "36.6") = .ok x) ∧
    (updateTemperatureUI (.string "36.6") (.string "ELEVATED") initialDisplay).display.boxShadow =
      "0 0 25px var(--color-elevated)" :=
  ⟨⟨_, parseFloat_string "36.6"⟩,
    (known_status_colour_table.1 (.string "36.6") initialDisplay
      ⟨_, parseFloat_string "36.6"⟩
      ("ELEVATED", "var(--color-elevated)") (by simp)).2.1⟩

/-- C6: rendering the same reading twice gives what rendering it once gives, the display
and the way the call ends, for every temperature, every status and every display. -/
theorem render_idempotent (temp status : JSValue) (d : DisplayState) :
    updateTemperatureUI temp status (updateTemperatureUI temp status d).display =
      updateTemperatureUI temp status d := by
  cases hx : parseFloat temp with
  | error e => rw [update_throw_temp _ _ d e hx, update_throw_temp _ _ d e hx]
  | ok x =>
    cases ht : textContentOf status with
    | error e => rw [update_throw_status _ _ d x e hx ht, update_throw_status _ _ _ x e hx ht]
    | ok text =>
      rw [update_ok _ _ d x text hx ht, update_ok _ _ _ x text hx ht]
      cases colorVar status <;> simp [setStyleProperty]

/-- C9: for a status string that is none of `LOW`, `NORMAL`, `ELEVATED`, `FEVER` (compared
exactly, so case matters) the call leaves the border colour, the glow and both text colours
as they were, and, for every temperature that `parseFloat` accepts, overwrites the numeric
text and the status text and throws nothing. -/
theorem unknown_status_keeps_colour (temp : JSValue) (s : String) (d : DisplayState)
    (h : s ≠ "LOW" ∧ s ≠ "NORMAL" ∧ s ≠ "ELEVATED" ∧ s ≠ "FEVER") :
    (updateTemperatureUI temp (.string s) d).display.borderColor = d.borderColor ∧
    (updateTemperatureUI temp (.string s) d).display.boxShadow = d.boxShadow ∧
    (updateTemperatureUI temp (.string s) d).display.tempStatusColor = d.tempStatusColor ∧
    (updateTemperatureUI temp (.string s) d).display.tempValueColor = d.tempValueColor ∧
    (∀ x, parseFloat temp = .ok x →
      (updateTemperatureUI temp (.string s) d).display.tempValueText = toFixed x 1 ++ "°C" ∧
      (updateTemperatureUI temp (.string s) d).display.tempStatusText = s ∧
      (updateTemperatureUI temp (.string s) d).thrown = none) := by
  have hc := colorVar_of_unknown s h.1 h.2.1 h.2.2.1 h.2.2.2
  obtain ⟨c1, c2, c3, c4⟩ := update_colours_of_none temp (.string s) d hc
  refine ⟨c1, c2, c3, c4, ?_⟩
  intro x hx
  rw [update_of_none temp (.string s) d x s hx (textContentOf_string s) hc]
  exact ⟨rfl, rfl, rfl⟩

/-- Witness of C9 on the lower-case status `fever`, after a `FEVER` reading. -/
theorem unknown_status_keeps_colour_witness :
    ("fever" ≠ "LOW" ∧ "fever" ≠ "NORMAL" ∧ "fever" ≠ "ELEVATED" ∧ "fever" ≠ "FEVER") ∧
    (updateTemperatureUI (jsonNumber 37) (.string "fever")
      (updateTemperatureUI (jsonNumber 39) (.string "FEVER")
        initialDisplay).display).display.borderColor = "var(--color-fever)" := by
  refine ⟨by decide, ?_⟩
  rw [(unknown_status_keeps_colour (jsonNumber 37) "fever"
    (updateTemperatureUI (jsonNumber 39) (.string "FEVER") initialDisplay).display
    (by decide)).1]
  rw [update_of_some (jsonNumber 39) "FEVER" initialDisplay _ "var(--color-fever)" rfl rfl]

/-! ## The numeric text -/

theorem toFixed_one_rounded (t : ℚ) (h : |t| < 10 ^ 21) :
    IsRoundedToOneDigit (toFixed (.finite t) 1) t := by
  have hfl : (0 : ℤ) ≤ ⌊|t| * 10 + 1 / 2⌋ :=
    Int.floor_nonneg.mpr (by have := abs_nonneg t; linarith)
  have hcast : ((⌊|t| * 10 + 1 / 2⌋.toNat : ℕ) : ℚ) = ((⌊|t| * 10 + 1 / 2⌋ : ℤ) : ℚ) := by
    have := Int.toNat_of_nonneg hfl
    exact_mod_cast this
  have hle := Int.floor_le (|t| * 10 + 1 / 2)
  have hlt := Int.lt_floor_add_one (|t| * 10 + 1 / 2)
  rw [← hcast] at hle hlt
  have heq := toFixed_one_eq t h
  revert heq hle hlt
  generalize ⌊|t| * 10 + 1 / 2⌋.toNat = n
  intro hle hlt heq
  obtain ⟨d1, d2, d3⟩ := decimalDigits_spec (n / 10)
  obtain ⟨c1, c2, -⟩ := digitChar_spec (n % 10) (Nat.mod_lt _ (by norm_num))
  refine ⟨decide (t < 0), decimalDigits (n / 10), digitChar (n % 10), ?_, d1,
    fun c hc => (d2 c hc).1, c1, ?_⟩
  · rw [heq]
    by_cases ht : t < 0 <;> simp [ht]
  · have hlast : natOfDigits [digitChar (n % 10)] = n % 10 := by
      simp [natOfDigits, c2]
    rw [d3, hlast]
    have hsplit : ((n / 10 : ℕ) : ℚ) + ((n % 10 : ℕ) : ℚ) / 10 = (n : ℚ) / 10 := by
      have := Nat.div_add_mod n 10
      have h2 : (10 : ℚ) * ((n / 10 : ℕ) : ℚ) + ((n % 10 : ℕ) : ℚ) = (n : ℚ) := by
        exact_mod_cast this
      linarith
    rw [hsplit]
    by_cases ht : t < 0
    · have habs : |t| = -t := abs_of_neg ht
      rw [habs] at hle hlt
      simp only [ht, decide_True, if_true]
      rw [abs_le]
      constructor <;> linarith
    · have habs : |t| = t := abs_of_nonneg (not_lt.mp ht)
      rw [habs] at hle hlt
      simp only [ht, decide_False, Bool.false_eq_true, if_false]
      rw [abs_le]
      constructor <;> linarith

/-- C2, as stated, fails: the finite temperature `10 ^ 21` is shown as `1e+21°C`, which has
no point followed by one digit before the unit. -/
theorem numeric_text_of_1e21 :
    (updateTemperatureUI (jsonNumber (10 ^ 21)) (.string "FEVER")
      initialDisplay).display.tempValueText = "1e+21°C" ∧
    ¬ ∃ text : String, "1e+21°C" = text ++ "°C" ∧ IsRoundedToOneDigit text (10 ^ 21) := by
  refine ⟨?_, ?_⟩
  · rw [jsonNumber, update_number_text]
    decide!
  · rintro ⟨text, h1, neg, digits, last, h2, -⟩
    subst h2
    have h3 := congrArg (fun s => s.data.reverse) h1
    simp at h3

/-- C2, amended: for every temperature `t` of magnitude below `10 ^ 21`, negative ones and
ones with more than one fractional digit included, the numeric text is `t` rounded to one
fractional digit followed by the degree sign and `C`: before the unit stand an optional
minus sign, a non-empty run of digits, a point and exactly one digit, and that decimal
differs from `t` by at most 0.05.  The readings 39.02, 15 and 36.6 are shown as `39.0°C`,
`15.0°C` and `36.6°C`. -/
theorem numeric_text_rounded (t : ℚ) (h : |t| < 10 ^ 21) (status : JSValue)
    (d : DisplayState) :
    (∃ text : String,
      (updateTemperatureUI (.number (.finite t)) status d).display.tempValueText =
        text ++ "°C" ∧
      IsRoundedToOneDigit text t) ∧
    (updateTemperatureUI (jsonNumber (3902 / 100)) status d).display.tempValueText =
      "39.0°C" ∧
    (updateTemperatureUI (jsonNumber 15) status d).display.tempValueText = "15.0°C" ∧
    (updateTemperatureUI (jsonNumber (366 / 10)) status d).display.tempValueText =
      "36.6°C" := by
  refine ⟨⟨toFixed (.finite t) 1, update_number_text _ status d, toFixed_one_rounded t h⟩,
    ?_, ?_, ?_⟩
  · rw [jsonNumber, update_number_text]
    decide!
  · rw [jsonNumber, update_number_text]
    decide!
  · rw [jsonNumber, update_number_text]
    decide!

/-- Witness of the amended C2 on the negative temperature -12.345, rendered over the initial
display. -/
theorem numeric_text_rounded_witness :
    |(-12345 / 1000 : ℚ)| < 10 ^ 21 ∧
    ∃ text : String,
      (updateTemperatureUI (.number (.finite (-12345 / 1000))) (.string "LOW")
        initialDisplay).display.tempValueText = text ++ "°C" ∧
      IsRoundedToOneDigit text (-12345 / 1000) :=
  ⟨by norm_num [abs_lt],
    (numeric_text_rounded (-12345 / 1000) (by norm_num [abs_lt]) (.string "LOW")
      initialDisplay).1⟩

/-- C7, as stated, fails: with the status `fever`, which no branch matches, the same reading
rendered over two displays that differ in colour gives two different displays. -/
theorem render_depends_on_prior_colour :
    (updateTemperatureUI (jsonNumber 37) (.string "fever") initialDisplay).display ≠
      (updateTemperatureUI (jsonNumber 37) (.string "fever")
        (updateTemperatureUI (jsonNumber 39) (.string "FEVER")
          initialDisplay).display).display ∧
    (updateTemperatureUI (jsonNumber 37) (.string "fever")
      initialDisplay).display.borderColor = "" ∧
    (updateTemperatureUI (jsonNumber 37) (.string "fever")
        (updateTemperatureUI (jsonNumber 39) (.string "FEVER")
          initialDisplay).display).display.borderColor = "var(--color-fever)" := by
  have hc : colorVar (.string "fever") = none := rfl
  have h1 : (updateTemperatureUI (jsonNumber 37) (.string "fever")
      initialDisplay).display.borderColor = "" :=
    (update_colours_of_none _ _ _ hc).1
  have h2 : (updateTemperatureUI (jsonNumber 37) (.string "fever")
      (updateTemperatureUI (jsonNumber 39) (.string "FEVER")
        initialDisplay).display).display.borderColor = "var(--color-fever)" := by
    rw [(update_colours_of_none _ _ _ hc).1,
      update_of_some (jsonNumber 39) "FEVER" initialDisplay _ "var(--color-fever)" rfl rfl]
  refine ⟨?_, h1, h2⟩
  intro h
  have h3 := congrArg DisplayState.borderColor h
  rw [h1, h2] at h3
  exact absurd h3 (by decide)

/-- C7, amended: when the status of a reading is one of the four known strings, what
rendering it gives is the same over every two prior displays, all six attributes, and so
rendering it after any other reading gives what rendering it alone gives; for every status,
known or not, the numeric text is the same over every two prior displays, and so is the
status text whenever the status has a text.  The temperature is a Number or any other value
that `parseFloat` accepts. -/
theorem render_last_writer_wins (temp : JSValue) (x : JSNumber) (status : String)
    (hx : parseFloat temp = .ok x)
    (h : status = "LOW" ∨ status = "NORMAL" ∨ status = "ELEVATED" ∨ status = "FEVER") :
    (∀ s1 s2 : DisplayState,
      updateTemperatureUI temp (.string status) s1 =
        updateTemperatureUI temp (.string status) s2) ∧
    (∀ (temp1 status1 : JSValue) (s : DisplayState),
      updateTemperatureUI temp (.string status)
          (updateTemperatureUI temp1 status1 s).display =
        updateTemperatureUI temp (.string status) s) ∧
    (∀ (anyStatus : JSValue) (s1 s2 : DisplayState),
      (updateTemperatureUI temp anyStatus s1).display.tempValueText =
        (updateTemperatureUI temp anyStatus s2).display.tempValueText ∧
      ((∃ text, textContentOf anyStatus = .ok text) →
        (updateTemperatureUI temp anyStatus s1).display.tempStatusText =
          (updateTemperatureUI temp anyStatus s2).display.tempStatusText)) := by
  obtain ⟨c, hc⟩ := colorVar_of_known status h
  refine ⟨?_, ?_, ?_⟩
  · intro s1 s2
    rw [update_of_some temp _ s1 x c hx hc, update_of_some temp _ s2 x c hx hc]
  · intro temp1 status1 s
    rw [update_of_some temp _ _ x c hx hc, update_of_some temp _ s x c hx hc]
  · intro anyStatus s1 s2
    cases ht : textContentOf anyStatus with
    | error e =>
      rw [update_throw_status _ _ s1 x e hx ht, update_throw_status _ _ s2 x e hx ht]
      exact ⟨rfl, fun ⟨text, h2⟩ => by simp at h2⟩
    | ok text =>
      rw [update_ok _ _ s1 x text hx ht, update_ok _ _ s2 x text hx ht]
      exact ⟨rfl, fun _ => rfl⟩

/-- Witness of the amended C7 on a `NORMAL` reading rendered after a `FEVER` reading. -/
theorem render_last_writer_wins_witness :
    updateTemperatureUI (jsonNumber 37) (.string "NORMAL")
        (updateTemperatureUI (jsonNumber 39) (.string "FEVER") initialDisplay).display =
      updateTemperatureUI (jsonNumber 37) (.string "NORMAL") initialDisplay :=
  (render_last_writer_wins (jsonNumber 37) (roundToDouble 37) "NORMAL" rfl (by decide)).2.1
    (jsonNumber 39) (.string "FEVER") initialDisplay

/-! ## Properties of `fetchData` -/

theorem settled_of_error (o : FetchOutcome) (p : Page) (e : JSError)
    (h : renderArguments o = .error e) :
    fetchDataSettled o p = { display := p.display, console := p.console ++ [e] } := by
  simp [fetchDataSettled, h, consoleError]

theorem settled_of_ok (o : FetchOutcome) (p : Page) (temp : JSNumber) (status : JSValue)
    (h : renderArguments o = .ok (temp, status)) :
    fetchDataSettled o p =
      { display := (updateTemperatureUI (.number temp) status p.display).display,
        console :=
          p.console ++ (updateTemperatureUI (.number temp) status p.display).thrown.toList } := by
  simp only [fetchDataSettled, h]
  cases (updateTemperatureUI (.number temp) status p.display).thrown <;> simp [consoleError]

theorem renderArguments_of_body (code : Nat) (data : JSValue) :
    renderArguments (.fulfilled { status := code, body := some data }) =
      match getProperty data "temperature" with
      | .error e => .error e
      | .ok temperature =>
        match parseFloat temperature with
        | .error e => .error e
        | .ok temp =>
          match getProperty data "status" with
          | .error e => .error e
          | .ok status => .ok (temp, status) := rfl

theorem getProperty_jsonReading (temperature status : JSValue) :
    getProperty (jsonReading temperature status) "temperature" = .ok temperature ∧
    getProperty (jsonReading temperature status) "status" = .ok status := by
  constructor <;> rfl

theorem getProperty_ok (data : JSValue) (key : String) (h1 : data ≠ .undefined)
    (h2 : data ≠ .null) : ∃ v, getProperty data key = .ok v := by
  cases data with
  | undefined => exact absurd rfl h1
  | null => exact absurd rfl h2
  | bool b => exact ⟨_, rfl⟩
  | number x => exact ⟨_, rfl⟩
  | string s => exact ⟨_, rfl⟩
  | array items => exact ⟨_, rfl⟩
  | object fields =>
    cases h : fields.reverse.find? (fun kv => kv.1 == key) with
    | none => exact ⟨.undefined, by simp [getProperty, h]⟩
    | some kv => exact ⟨kv.2, by simp [getProperty, h]⟩

theorem toFixed_nan (f : Nat) : toFixed .nan f = "NaN" := rfl

theorem parseFloat_undefined : parseFloat .undefined = .ok .nan := by
  have h : parseFloatString "undefined" = .nan := by decide!
  simp [parseFloat, JSValue.toStr, h]

/-- C3: when the request fails at the transport level, or the body of the response is not
JSON text, the chain does not reach `updateTemperatureUI`, the display is left as it was,
all attributes, and exactly one entry is added to the console. -/
theorem failed_fetch_keeps_display (p : Page) (o : FetchOutcome)
    (h : o = .rejected ∨ ∃ code, o = .fulfilled { status := code, body := none }) :
    ∃ e, renderArguments o = .error e ∧
      fetchDataSettled o p = { display := p.display, console := p.console ++ [e] } ∧
      (fetchDataSettled o p).display = p.display ∧
      (fetchDataSettled o p).console.length = p.console.length + 1 := by
  have key : ∃ e, renderArguments o = .error e := by
    rcases h with h | ⟨code, h⟩ <;> subst h
    · exact ⟨.networkError, rfl⟩
    · exact ⟨.syntaxError, rfl⟩
  obtain ⟨e, he⟩ := key
  refine ⟨e, he, settled_of_error o p e he, ?_, ?_⟩ <;> simp [settled_of_error o p e he]

/-- Witness of C3: a body that is not JSON, after a `NORMAL` reading was rendered. -/
theorem failed_fetch_keeps_display_witness :
    (fetchDataSettled (.fulfilled { status := 200, body := none })
        { display :=
            (updateTemperatureUI (jsonNumber 37) (.string "NORMAL") initialDisplay).display,
          console := [] }).display =
      (updateTemperatureUI (jsonNumber 37) (.string "NORMAL") initialDisplay).display := by
  obtain ⟨e, -, -, h, -⟩ := failed_fetch_keeps_display
    { display := (updateTemperatureUI (jsonNumber 37) (.string "NORMAL") initialDisplay).display,
      console := [] }
    (.fulfilled { status := 200, body := none }) (Or.inr ⟨200, rfl⟩)
  exact h

/-- C4, as stated, fails: a response with status code 500 whose body is the reading
`36.6`, `NORMAL` is rendered like any other, and nothing is logged. -/
theorem http_500_with_reading_is_rendered :
    fetchDataSettled
        (.fulfilled ⟨500, some (jsonReading (jsonNumber (366 / 10)) (.string "NORMAL"))⟩)
        initialPage =
      { display :=
          { tempValueText := "36.6°C", tempStatusText := "NORMAL",
            borderColor := "var(--color-normal)", boxShadow := "0 0 25px var(--color-normal)",
            tempStatusColor := "var(--color-normal)", tempValueColor := "var(--color-normal)" },
        console := [] } ∧
    (fetchDataSettled
        (.fulfilled ⟨500, some (jsonReading (jsonNumber (366 / 10)) (.string "NORMAL"))⟩)
        initialPage).display ≠ initialPage.display := by
  decide!

/-- C4, amended: the status code of a response is never looked at, a poll acts as for a
response with code 200 and the same body.  So for a non-success code: a body that is not
JSON text leaves the display as it was and adds one console entry, and a body that is a
reading is rendered, with nothing logged unless the rendering call throws. -/
theorem status_code_is_ignored (code : Nat) (body : Option JSValue) (p : Page) :
    fetchDataSettled (.fulfilled { status := code, body := body }) p =
      fetchDataSettled (.fulfilled { status := 200, body := body }) p ∧
    (body = none →
      fetchDataSettled (.fulfilled { status := code, body := body }) p =
        { display := p.display, console := p.console ++ [.syntaxError] }) ∧
    (∀ (temperature status : JSValue) (x : JSNumber),
      body = some (jsonReading temperature status) → parseFloat temperature = .ok x →
      fetchDataSettled (.fulfilled { status := code, body := body }) p =
        { display := (updateTemperatureUI (.number x) status p.display).display,
          console :=
            p.console ++ (updateTemperatureUI (.number x) status p.display).thrown.toList }) ∧
    (∀ (x : JSNumber) (status : String),
      body = some (jsonReading (.number x) (.string status)) →
      fetchDataSettled (.fulfilled { status := code, body := body }) p =
        { display := (updateTemperatureUI (.number x) (.string status) p.display).display,
          console := p.console }) := by
  have h3 : ∀ (temperature status : JSValue) (x : JSNumber),
      body = some (jsonReading temperature status) → parseFloat temperature = .ok x →
      fetchDataSettled (.fulfilled { status := code, body := body }) p =
        { display := (updateTemperatureUI (.number x) status p.display).display,
          console :=
            p.console ++ (updateTemperatureUI (.number x) status p.display).thrown.toList } := by
    intro temperature status x h hx
    subst h
    apply settled_of_ok
    rw [renderArguments_of_body, (getProperty_jsonReading _ _).1,
      (getProperty_jsonReading _ _).2]
    simp only [hx]
  refine ⟨?_, ?_, h3, ?_⟩
  · cases body <;> rfl
  · intro h
    subst h
    exact settled_of_error _ p _ rfl
  · intro x status h
    rw [h3 (.number x) (.string status) x h rfl,
      update_ok (.number x) (.string status) p.display x status rfl
        (textContentOf_string status)]
    simp

/-- Witness of the amended C4: a 500 response whose body is not JSON, on the initial
page. -/
theorem status_code_is_ignored_witness :
    fetchDataSettled (.fulfilled { status := 500, body := none }) initialPage =
      { display := initialPage.display, console := initialPage.console ++ [.syntaxError] } :=
  (status_code_is_ignored 500 none initialPage).2.1 rfl

theorem getProperty_missing (fields : List (String × JSValue)) (key : String)
    (h : ∀ kv ∈ fields, kv.1 ≠ key) : getProperty (.object fields) key = .ok .undefined := by
  have hnone : fields.reverse.find? (fun kv => kv.1 == key) = none := by
    rw [List.find?_eq_none]
    intro kv hkv
    simpa using h kv (List.mem_reverse.mp hkv)
  simp [getProperty, hnone]

/-- C5, as stated, fails: the body `{}` is valid JSON without a `temperature` and without a
`status` member; the poll renders it, the numeric text becomes `NaN°C` and the status text
becomes empty, and nothing is logged. -/
theorem empty_object_is_rendered :
    fetchDataSettled (.fulfilled { status := 200, body := some (.object []) }) initialPage =
      { display :=
          { tempValueText := "NaN°C", tempStatusText := "", borderColor := "",
            boxShadow := "", tempStatusColor := "", tempValueColor := "" },
        console := [] } ∧
    (fetchDataSettled (.fulfilled { status := 200, body := some (.object []) })
        initialPage).display.tempValueText ≠ initialPage.display.tempValueText ∧
    (fetchDataSettled (.fulfilled { status := 200, body := some (.object []) })
        initialPage).display.tempStatusText ≠ initialPage.display.tempStatusText := by
  decide!

/-- C5, amended: for a body that is valid JSON and not `null`, with `temperature` and
`status` standing for its two members, `undefined` for a missing one.  The poll fails with
the display untouched and one console entry when converting `temperature` to text throws,
which an object with a member named `toString` does.  Otherwise `updateTemperatureUI` is
called with `parseFloat(temperature)` and `status`: the numeric text is overwritten, and
it is `NaN°C` when `temperature` is missing or parses to no number; when `status` has a
text, that text becomes the status text and nothing is logged; when `status` is missing the
status text becomes empty and the colour attributes keep their values; when converting
`status` to text throws, the numeric text stays overwritten, everything else is as before
and one entry is logged.  The body `null` makes the poll fail: the display is left as it
was and one entry is logged. -/
theorem missing_fields_are_rendered (code : Nat) (data : JSValue) (p : Page)
    (h1 : data ≠ .undefined) (h2 : data ≠ .null) :
    (∃ temperature status : JSValue,
      getProperty data "temperature" = .ok temperature ∧
      getProperty data "status" = .ok status ∧
      (∀ e, parseFloat temperature = .error e →
        fetchDataSettled (.fulfilled { status := code, body := some data }) p =
          { display := p.display, console := p.console ++ [e] }) ∧
      (temperature = .undefined → parseFloat temperature = .ok .nan) ∧
      (∀ x, parseFloat temperature = .ok x →
        renderArguments (.fulfilled { status := code, body := some data }) = .ok (x, status) ∧
        fetchDataSettled (.fulfilled { status := code, body := some data }) p =
          { display := (updateTemperatureUI (.number x) status p.display).display,
            console :=
              p.console ++ (updateTemperatureUI (.number x) status p.display).thrown.toList } ∧
        (fetchDataSettled (.fulfilled { status := code, body := some data })
          p).display.tempValueText = toFixed x 1 ++ "°C" ∧
        (x = .nan →
          (fetchDataSettled (.fulfilled { status := code, body := some data })
            p).display.tempValueText = "NaN°C") ∧
        (∀ text, textContentOf status = .ok text →
          (fetchDataSettled (.fulfilled { status := code, body := some data })
            p).display.tempStatusText = text ∧
          (fetchDataSettled (.fulfilled { status := code, body := some data })
            p).console = p.console) ∧
        (∀ e, textContentOf status = .error e →
          fetchDataSettled (.fulfilled { status := code, body := some data }) p =
            { display := { p.display with tempValueText := toFixed x 1 ++ "°C" },
              console := p.console ++ [e] }) ∧
        (status = .undefined →
          (fetchDataSettled (.fulfilled { status := code, body := some data })
            p).display.tempStatusText = "" ∧
          (fetchDataSettled (.fulfilled { status := code, body := some data })
            p).display.borderColor = p.display.borderColor ∧
          (fetchDataSettled (.fulfilled { status := code, body := some data })
            p).display.boxShadow = p.display.boxShadow ∧
          (fetchDataSettled (.fulfilled { status := code, body := some data })
            p).display.tempStatusColor = p.display.tempStatusColor ∧
          (fetchDataSettled (.fulfilled { status := code, body := some data })
            p).display.tempValueColor = p.display.tempValueColor ∧
          (fetchDataSettled (.fulfilled { status := code, body := some data })
            p).console = p.console))) ∧
    (∀ (fields : List (String × JSValue)) (key : String),
      (∀ kv ∈ fields, kv.1 ≠ key) → getProperty (.object fields) key = .ok .undefined) ∧
    fetchDataSettled (.fulfilled { status := code, body := some .null }) p =
      { display := p.display, console := p.console ++ [.typeError] } := by
  obtain ⟨temperature, ht⟩ := getProperty_ok data "temperature" h1 h2
  obtain ⟨status, hs⟩ := getProperty_ok data "status" h1 h2
  refine ⟨⟨temperature, status, ht, hs, ?_, ?_, ?_⟩, getProperty_missing,
    settled_of_error _ p _ rfl⟩
  · intro e he
    apply settled_of_error
    rw [renderArguments_of_body, ht]
    simp only [he]
  · intro hu
    rw [hu]
    exact parseFloat_undefined
  · intro x hx
    have hr : renderArguments (.fulfilled { status := code, body := some data }) =
        .ok (x, status) := by
      rw [renderArguments_of_body, ht, hs]
      simp only [hx]
    have hset := settled_of_ok _ p _ _ hr
    have htext : (fetchDataSettled (.fulfilled { status := code, body := some data })
        p).display.tempValueText = toFixed x 1 ++ "°C" := by
      rw [hset]
      exact update_number_text x status p.display
    refine ⟨hr, hset, htext, ?_, ?_, ?_, ?_⟩
    · intro hnan
      rw [htext, hnan, toFixed_nan]
      decide
    · intro text htx
      rw [hset, update_ok (.number x) status p.display x text rfl htx]
      simp
    · intro e hte
      rw [hset, update_throw_status (.number x) status p.display x e rfl hte]
      simp [degC]
    · intro hu
      subst hu
      rw [hset, update_of_none (.number x) .undefined p.display x "" rfl rfl rfl]
      simp

/-- Witness of the amended C5: the body `{"status": "FEVER"}`, which has no `temperature`
member, on the initial page. -/
theorem missing_fields_are_rendered_witness :
    (JSValue.object [("status", .string "FEVER")] ≠ .undefined ∧
      JSValue.object [("status", .string "FEVER")] ≠ .null) ∧
    (fetchDataSettled
        (.fulfilled { status := 200, body := some (.object [("status", .string "FEVER")]) })
        initialPage).display.tempValueText = "NaN°C" := by
  refine ⟨⟨by simp, by simp⟩, ?_⟩
  obtain ⟨⟨temperature, status, ht, -, -, hu, h⟩, -, -⟩ :=
    missing_fields_are_rendered 200 (.object [("status", .string "FEVER")]) initialPage
      (by simp) (by simp)
  have h0 : getProperty (.object [("status", .string "FEVER")]) "temperature" =
      .ok .undefined := rfl
  rw [h0] at ht
  have hund : temperature = .undefined := (Except.ok.inj ht).symm
  exact (h .nan (hu hund)).2.2.2.1 rfl

/-- A `temperature` member that is an object with a member of its own named `toString`:
`parseFloat` throws, the poll fails and the display is untouched.  A `status` member of that
kind: the numeric text is written, then the call throws. -/
theorem unconvertible_members :
    fetchDataSettled
        (.fulfilled ⟨200, some (jsonReading (.object [("toString", jsonNumber 1)])
          (.string "LOW"))⟩) initialPage =
      { display := initialDisplay, console := [.typeError] } ∧
    fetchDataSettled
        (.fulfilled ⟨200, some (jsonReading (jsonNumber 1)
          (.object [("toString", jsonNumber 1)]))⟩) initialPage =
      { display := { initialDisplay with tempValueText := "1.0°C" },
        console := [.typeError] } := by
  decide!

/-! ## Properties of `onload` and the event loop -/

theorem ticks_append_timer (events : List Event) :
    ticks (events ++ [.timerFires 0]) = ticks events + 1 := by
  simp [ticks, List.countP_append]

theorem ticks_append_other (events : List Event) (id : Nat) :
    ticks (events ++ [.timerFires (id + 1)]) = ticks events := by
  simp [ticks, List.countP_append]

theorem ticks_append_settles (events : List Event) (id : Nat) (o : FetchOutcome) :
    ticks (events ++ [.requestSettles id o]) = ticks events := by
  simp [ticks, List.countP_append]

theorem run_append (w : Window) (events : List Event) (e : Event) :
    w.run (events ++ [e]) = (w.run events).step e := by
  simp [Window.run, List.foldl_append]

theorem step_timer_absent (w : Window) (id : Nat) (h : w.timers[id]? = none) :
    w.step (.timerFires id) = w := by
  simp [Window.step, h]

theorem map_issuedAt_set (rs : List Request) (id : Nat) (r : Request)
    (h : rs[id]? = some r) :
    (rs.set id { r with settled := true }).map Request.issuedAt = rs.map Request.issuedAt := by
  induction rs generalizing id with
  | nil => rfl
  | cons a tl ih =>
    cases id with
    | zero =>
      simp only [List.getElem?_cons_zero, Option.some.injEq] at h
      subst h
      rfl
    | succ n =>
      simp only [List.getElem?_cons_succ] at h
      simp only [List.set, List.map_cons, ih n h]

theorem step_settles (w : Window) (id : Nat) (o : FetchOutcome) :
    (w.step (.requestSettles id o)).timers = w.timers ∧
    (w.step (.requestSettles id o)).now = w.now ∧
    (w.step (.requestSettles id o)).requests.map Request.issuedAt =
      w.requests.map Request.issuedAt := by
  cases h : w.requests[id]? with
  | none => simp [Window.step, h]
  | some r =>
    by_cases hs : r.settled = true
    · simp [Window.step, h, hs]
    · simp [Window.step, h, hs, map_issuedAt_set _ _ _ h]

theorem step_settles_in_flight (w : Window) (id : Nat) (o : FetchOutcome) (t : Nat)
    (h : w.requests[id]? = some { issuedAt := t, settled := false }) :
    (w.step (.requestSettles id o)).page = fetchDataSettled o w.page ∧
    (w.step (.requestSettles id o)).requests[id]? = some { issuedAt := t, settled := true } := by
  have hlt : id < w.requests.length := by
    rcases Nat.lt_or_ge id w.requests.length with hl | hl
    · exact hl
    · rw [List.getElem?_eq_none hl] at h
      exact absurd h (by simp)
  simp [Window.step, h, hlt]

/-- C8: the `onload` handler starts one poll at once, issuing one request at time `0`, and
arms one timer, of period 3000 ms with callback `fetchData`.  After any sequence of events,
whatever the requests settle to and however many are in flight, there is still exactly that
one timer, due at the next multiple of 3000, and the requests issued are exactly one at
load and one at each tick: at the times `0`, `3000`, ..., `3000 × ticks`.  A request in
flight that settles runs the chain of `fetchData` on the page and changes neither the timer
nor the requests issued. -/
theorem onload_polls_every_period (events : List Event) :
    (onload initialWindow).requests = [{ issuedAt := 0, settled := false }] ∧
    (onload initialWindow).timers = [{ callback := .fetchData, period := 3000, due := 3000 }] ∧
    ((onload initialWindow).run events).timers =
      [{ callback := .fetchData, period := 3000, due := 3000 * (ticks events + 1) }] ∧
    ((onload initialWindow).run events).requests.map Request.issuedAt =
      (List.range (ticks events + 1)).map (fun i => 3000 * i) ∧
    ((onload initialWindow).run events).requests.length = ticks events + 1 ∧
    (((onload initialWindow).run events).step (.timerFires 0)).requests =
      ((onload initialWindow).run events).requests ++
        [{ issuedAt := 3000 * (ticks events + 1), settled := false }] ∧
    (∀ (id t : Nat) (o : FetchOutcome),
      ((onload initialWindow).run events).requests[id]? =
        some { issuedAt := t, settled := false } →
      (((onload initialWindow).run events).step (.requestSettles id o)).page =
        fetchDataSettled o ((onload initialWindow).run events).page ∧
      (((onload initialWindow).run events).step (.requestSettles id o)).timers =
        ((onload initialWindow).run events).timers ∧
      (((onload initialWindow).run events).step (.requestSettles id o)).requests.map
          Request.issuedAt =
        ((onload initialWindow).run events).requests.map Request.issuedAt) := by
  have inv : ((onload initialWindow).run events).timers =
        [{ callback := .fetchData, period := 3000, due := 3000 * (ticks events + 1) }] ∧
      ((onload initialWindow).run events).requests.map Request.issuedAt =
        (List.range (ticks events + 1)).map (fun i => 3000 * i) := by
    induction events using List.reverseRecOn with
    | nil => exact ⟨rfl, rfl⟩
    | append_singleton events e ih =>
      obtain ⟨ih1, ih2⟩ := ih
      rw [run_append]
      cases e with
      | timerFires id =>
        cases id with
        | zero =>
          rw [ticks_append_timer]
          simp only [Window.step, ih1, List.getElem?_cons_zero, Callback.run, fetchData,
            List.set, List.map_append, ih2, List.map_cons, List.map_nil]
          refine ⟨by simp; ring, ?_⟩
          rw [List.range_succ (n := ticks events + 1), List.map_append]
          simp
        | succ n =>
          have hnone : ((onload initialWindow).run events).timers[n + 1]? = none := by
            rw [ih1]
            rfl
          rw [ticks_append_other, step_timer_absent _ _ hnone]
          exact ⟨ih1, ih2⟩
      | requestSettles id o =>
        obtain ⟨s1, -, s3⟩ := step_settles ((onload initialWindow).run events) id o
        rw [ticks_append_settles, s1, s3]
        exact ⟨ih1, ih2⟩
  obtain ⟨i1, i2⟩ := inv
  refine ⟨rfl, rfl, i1, i2, ?_, ?_, ?_⟩
  · have := congrArg List.length i2
    simpa using this
  · simp only [Window.step, i1, List.getElem?_cons_zero, Callback.run, fetchData]
  · intro id t o h
    obtain ⟨s1, -, s3⟩ := step_settles ((onload initialWindow).run events) id o
    exact ⟨(step_settles_in_flight _ id o t h).1, s1, s3⟩

/-- Witness of C8: after one tick, the request issued at load settles as a transport
failure. -/
theorem onload_polls_every_period_witness :
    ((onload initialWindow).run [.timerFires 0]).requests[0]? =
      some { issuedAt := 0, settled := false } ∧
    (((onload initialWindow).run [.timerFires 0]).step (.requestSettles 0 .rejected)).page =
      fetchDataSettled .rejected ((onload initialWindow).run [.timerFires 0]).page ∧
    ((onload initialWindow).run [.timerFires 0]).requests.map Request.issuedAt = [0, 3000] :=
  ⟨rfl,
    ((onload_polls_every_period [.timerFires 0]).2.2.2.2.2.2 0 0 .rejected rfl).1,
    (onload_polls_every_period [.timerFires 0]).2.2.2.1⟩

/-! ## The loading state -/

end Thermometer
